import Mathlib

/-!
Verification of the result-shape normalization logic of
`generate_image` in `src/app.py` (vibe-code-image-generator).

The function takes a prompt and forwards it to a remote predict call;
the remote result is an untyped value which the function probes:
a list of entries, a dict with an `image` key, a bare string
(local path or URL), or an already-decoded PIL image.  All I/O
(filesystem existence checks, file decoding, HTTP fetch, byte decoding)
is modelled by an explicit environment, and Python exceptions are
modelled by an explicit exceptional outcome `PRes.exn`.
-/

set_option autoImplicit false

namespace VibeImage

/-- A decoded in-memory image (pixel buffer), as produced by PIL. -/
structure Image where
  pixels : List Nat
deriving DecidableEq, Repr

/-- Raw bytes, as returned by an HTTP response body. -/
abbrev Bytes := List Nat

/-- Outcome of a Python computation: a returned value or a raised exception. -/
inductive PRes (α : Type) where
  | ok : α → PRes α
  | exn : PRes α
deriving DecidableEq, Repr

/-- The I/O environment of one call to `generate_image`:
`pathExists` models `os.path.exists`, `openFile` models `Image.open`
applied to a path (`none` = the open/decode raised), `fetch` models
`requests.get` (`none` = the request raised, `some b` = a response with
body `b`), and `decodeBytes` models `Image.open(io.BytesIO(b))`
(`none` = the decode raised). -/
structure Env where
  pathExists : String → Bool
  openFile : String → Option Image
  fetch : String → Option Bytes
  decodeBytes : Bytes → Option Image

/-- The untyped remote result: a Python list, dict, str, PIL image
(the only value here exposing a `save` attribute), or any other value
such as a number. -/
inductive Value where
  | vlist : List Value → Value
  | vdict : List (String × Value) → Value
  | vstr : String → Value
  | vpil : Image → Value
  | vnum : Int → Value

/-- `item.startswith(('http://', 'https://'))` from `src/app.py`,
modelled over the character list of the string. -/
def isUrl (s : String) : Bool :=
  List.isPrefixOf "http://".data s.data || List.isPrefixOf "https://".data s.data

/-- `not prompt.strip()` from `src/app.py` line 13: stripping leading and
trailing whitespace leaves the empty string iff every character is
whitespace. -/
def isBlank (s : String) : Bool :=
  s.data.all Char.isWhitespace

/-- One iteration of the scan loop over a list result
(`src/app.py` lines 33-52).  Each iteration is wrapped in
`try/except ... continue`, so both a raised exception and a fall-through
without `return` yield `none` (move to the next entry):
- a dict with an `image` key: if the value is a string naming an
  existing path, open it (a raise during open is caught); a non-string
  value makes `os.path.exists` raise, which is caught;
- a string: an existing path is opened; otherwise a URL is fetched and
  its bytes decoded (raises caught);
- a PIL image (has `save`): returned directly;
- anything else: no branch taken. -/
def processItem (env : Env) (item : Value) : Option Image :=
  match item with
  | Value.vdict d =>
      match List.lookup "image" d with
      | some (Value.vstr p) => if env.pathExists p then env.openFile p else none
      | some _ => none
      | none => none
  | Value.vstr s =>
      if env.pathExists s then env.openFile s
      else if isUrl s then
        match env.fetch s with
        | some bs => env.decodeBytes bs
        | none => none
      else none
  | Value.vpil img => some img
  | _ => none

/-- The in-order scan of a list result (`for i, item in enumerate(result)`):
first entry that resolves wins. -/
def scanItems (env : Env) : List Value → Option Image
  | [] => none
  | item :: rest =>
      match processItem env item with
      | some img => some img
      | none => scanItems env rest

/-- The fallback on the first entry when the scan produced nothing
(`src/app.py` lines 54-62).  There is no `try/except` here, so a raise
during `Image.open` (or a non-string `image` value hitting
`os.path.exists`) propagates to the outer handler (`PRes.exn`);
a fall-through without `return` continues to the final `return None`
of the function, so it is modelled as `PRes.ok none`.  Note the string
branch checks only `os.path.exists` — there is no URL branch — and there
is no `hasattr(first_item, 'save')` branch. -/
def fallbackFirst (env : Env) (first : Value) : PRes (Option Image) :=
  match first with
  | Value.vdict d =>
      match List.lookup "image" d with
      | some (Value.vstr p) =>
          if env.pathExists p then
            match env.openFile p with
            | some img => PRes.ok (some img)
            | none => PRes.exn
          else PRes.ok none
      | some _ => PRes.exn
      | none => PRes.ok none
  | Value.vstr s =>
      if env.pathExists s then
        match env.openFile s with
        | some img => PRes.ok (some img)
        | none => PRes.exn
      else PRes.ok none
  | _ => PRes.ok none

/-- The shape probes over the remote result (`src/app.py` lines 32-84),
i.e. the body of the outer `try` after the predict call returned
`result`.  Exceptions raised in branches without a local handler
surface as `PRes.exn` (to be caught by the outer `except`); reaching
the final `return None` is `PRes.ok none`. -/
def resolveResult (env : Env) (result : Value) : PRes (Option Image) :=
  match result with
  | Value.vlist items =>
      match scanItems env items with
      | some img => PRes.ok (some img)
      | none =>
          match items with
          | [] => PRes.ok none
          | first :: _ => fallbackFirst env first
  | Value.vdict d =>
      match List.lookup "image" d with
      | some (Value.vstr p) =>
          if env.pathExists p then
            match env.openFile p with
            | some img => PRes.ok (some img)
            | none => PRes.exn
          else PRes.ok none
      | some _ => PRes.exn
      | none => PRes.ok none
  | Value.vstr s =>
      if env.pathExists s then
        match env.openFile s with
        | some img => PRes.ok (some img)
        | none => PRes.exn
      else if isUrl s then
        match env.fetch s with
        | some bs =>
            match env.decodeBytes bs with
            | some img => PRes.ok (some img)
            | none => PRes.exn
        | none => PRes.exn
      else PRes.ok none
  | Value.vpil img => PRes.ok (some img)
  | Value.vnum _ => PRes.ok none

/-- `generate_image` with an explicit trace of whether the remote
service was invoked (`src/app.py` lines 9-88).  `remote` is the outcome
of the predict call (`PRes.exn` = client construction or predict
raised); it is consulted only when the prompt is non-empty after
stripping.  The second component records whether the client was
constructed and `predict` called.  The outer `except` converts any
exception to `None`. -/
def generateImageT (env : Env) (prompt : String) (remote : PRes Value) :
    Option Image × Bool :=
  if isBlank prompt then (none, false)
  else
    match remote with
    | PRes.exn => (none, true)
    | PRes.ok result =>
        match resolveResult env result with
        | PRes.ok r => (r, true)
        | PRes.exn => (none, true)

/-- The value returned to the caller of `generate_image`. -/
def generate_image (env : Env) (prompt : String) (remote : PRes Value) :
    Option Image :=
  (generateImageT env prompt remote).1

/-! ## Concrete environments used by witnesses and counterexamples -/

/-- Image with pixel buffer `[1]`, the decoded contents of `/tmp/a.png`. -/
def imgA : Image := ⟨[1]⟩

/-- Image with pixel buffer `[2]`, the decoded contents of `/tmp/b.png`. -/
def imgB : Image := ⟨[2]⟩

/-- Image with pixel buffer `[7]`, the decode of the fetched bytes `[9, 9]`. -/
def imgW : Image := ⟨[7]⟩

/-- A URL used in witnesses and counterexamples. -/
def urlX : String := "http://img.example/x.png"

/-- Environment where `/tmp/a.png` and `/tmp/b.png` exist and decode to
`imgA` and `imgB`, and fetching `urlX` yields bytes `[9, 9]` which
decode to `imgW`. -/
def envA : Env :=
  { pathExists := fun p => p == "/tmp/a.png" || p == "/tmp/b.png"
    openFile := fun p =>
      if p == "/tmp/a.png" then some imgA
      else if p == "/tmp/b.png" then some imgB
      else none
    fetch := fun s => if s == urlX then some [9, 9] else none
    decodeBytes := fun b => if b == [9, 9] then some imgW else none }

/-- Environment where `/tmp/bad.png` exists but opening it raises
(a corrupt file), and every fetch raises. -/
def envBad : Env :=
  { pathExists := fun p => p == "/tmp/bad.png"
    openFile := fun _ => none
    fetch := fun _ => none
    decodeBytes := fun _ => none }

/-- `envA` with a network that fails every fetch (only the network
differs from `envA`; the filesystem is unchanged). -/
def envA2 : Env := { envA with fetch := fun _ => none }

/-- Environment where the text `urlX` is simultaneously an existing
local path (decoding to `imgA`) and a fetchable URL (whose bytes decode
to the different image `imgW`). -/
def envU : Env :=
  { pathExists := fun p => p == urlX
    openFile := fun p => if p == urlX then some imgA else none
    fetch := fun s => if s == urlX then some [9, 9] else none
    decodeBytes := fun b => if b == [9, 9] then some imgW else none }

/-! ## Theorems for the claims -/

/-- Claim C1: for every prompt and every outcome of the remote predict
call, `generate_image` never raises to its caller: it returns either a
resolved image or `none`, a raised predict call yields `none`, and any
exception escaping the shape probes is caught and degraded to `none`. -/
theorem generate_image_never_raises (env : Env) (prompt : String)
    (remote : PRes Value) :
    ((∃ img, generate_image env prompt remote = some img) ∨
      generate_image env prompt remote = none) ∧
    generate_image env prompt PRes.exn = none ∧
    (∀ r, resolveResult env r = PRes.exn →
      generate_image env prompt (PRes.ok r) = none) := by
  refine ⟨?_, ?_, ?_⟩
  · cases h : generate_image env prompt remote with
    | none => exact Or.inr rfl
    | some img => exact Or.inl ⟨img, rfl⟩

  · cases hb : isBlank prompt <;> simp [generate_image, generateImageT, hb]
  · intro r hr
    cases hb : isBlank prompt <;>
      simp [generate_image, generateImageT, hb, hr]

/-- Witness for C1: a concrete run in which the shape probes raise
(an existing but corrupt file hit by the top-level string branch, where
no local handler exists) and the caller still receives `none`. -/
theorem generate_image_never_raises_witness :
    resolveResult envBad (Value.vstr "/tmp/bad.png") = PRes.exn ∧
    generate_image envBad "hello" (PRes.ok (Value.vstr "/tmp/bad.png")) = none :=
  ⟨by decide,
    (generate_image_never_raises envBad "hello"
        (PRes.ok (Value.vstr "/tmp/bad.png"))).2.2
      (Value.vstr "/tmp/bad.png") (by decide)⟩

/-- Counterexample to claim C2: the `image` field of a mapping is never
resolved through the URL branch.  In `envA` fetching `urlX` succeeds and
its bytes decode to `imgW`, so a bare text candidate `urlX` resolves to
`imgW`, both in the scan and at top level; but the same text inside a
mapping's `image` field yields no image. -/
theorem mapping_url_not_fetched_cex :
    envA.pathExists urlX = false ∧
    isUrl urlX = true ∧
    envA.fetch urlX = some [9, 9] ∧
    envA.decodeBytes [9, 9] = some imgW ∧
    processItem envA (Value.vstr urlX) = some imgW ∧
    processItem envA (Value.vdict [("image", Value.vstr urlX)]) = none ∧
    generate_image envA "p" (PRes.ok (Value.vstr urlX)) = some imgW ∧
    generate_image envA "p" (PRes.ok (Value.vdict [("image", Value.vstr urlX)])) = none := by
  decide

/-- Amended claim C2: a candidate reference taken from a mapping's
`image` field is resolved through the filesystem branch only: if the
path exists the file is opened, otherwise the candidate yields no image;
the URL-fetch branch applies only to bare text candidates, and the
mapping branches are independent of the network. -/
theorem mapping_image_field_filesystem_only (env : Env)
    (d : List (String × Value)) (t : String)
    (h : List.lookup "image" d = some (Value.vstr t)) :
    processItem env (Value.vdict d) =
      (if env.pathExists t then env.openFile t else none) ∧
    resolveResult env (Value.vdict d) =
      (if env.pathExists t then
        match env.openFile t with
        | some img => PRes.ok (some img)
        | none => PRes.exn
       else PRes.ok none) ∧
    (∀ f, processItem { env with fetch := f } (Value.vdict d) =
      processItem env (Value.vdict d)) ∧
    (∀ f, resolveResult { env with fetch := f } (Value.vdict d) =
      resolveResult env (Value.vdict d)) := by
  refine ⟨?_, ?_, ?_, ?_⟩ <;> simp [processItem, resolveResult, h]

/-- Witness for the amended C2 at a concrete mapping and environment. -/
theorem mapping_image_field_filesystem_only_witness :
    processItem envA (Value.vdict [("image", Value.vstr "/tmp/b.png")]) =
      (if envA.pathExists "/tmp/b.png" then envA.openFile "/tmp/b.png" else none) :=
  (mapping_image_field_filesystem_only envA
      [("image", Value.vstr "/tmp/b.png")] "/tmp/b.png" rfl).1

/-- Counterexample to claim C3: the fallback on the first entry does
not apply the same text-candidate resolution as the main scan.  In
`envA` the text `urlX` does not exist locally, is a URL, and its fetch
succeeds and decodes to `imgW`: the main scan's per-entry resolution
returns `imgW`, but the fallback applied to the very same text yields
no image — the URL-fetch branch is absent from the retry. -/
theorem fallback_url_not_refetched_cex :
    envA.pathExists urlX = false ∧
    isUrl urlX = true ∧
    envA.fetch urlX = some [9, 9] ∧
    envA.decodeBytes [9, 9] = some imgW ∧
    processItem envA (Value.vstr urlX) = some imgW ∧
    fallbackFirst envA (Value.vstr urlX) = PRes.ok none := by
  decide

/-- Amended claim C3: when the in-order scan of a sequence result
produces no image, `generate_image` retries using only the first entry,
applying the same mapping extraction, and for a text entry only the
local-file branch (no URL fetch: the retry never touches the network);
the decodable-capability check is not re-applied. -/
theorem fallback_first_entry_behaviour (env : Env) :
    (∀ d p img, List.lookup "image" d = some (Value.vstr p) →
      env.pathExists p = true → env.openFile p = some img →
      fallbackFirst env (Value.vdict d) = PRes.ok (some img)) ∧
    (∀ s img, env.pathExists s = true → env.openFile s = some img →
      fallbackFirst env (Value.vstr s) = PRes.ok (some img)) ∧
    (∀ s, env.pathExists s = false →
      fallbackFirst env (Value.vstr s) = PRes.ok none) ∧
    (∀ img, fallbackFirst env (Value.vpil img) = PRes.ok none) ∧
    (∀ f v, fallbackFirst { env with fetch := f } v = fallbackFirst env v) ∧
    (∀ first rest, scanItems env (first :: rest) = none →
      resolveResult env (Value.vlist (first :: rest)) = fallbackFirst env first) := by
  refine ⟨?_, ?_, ?_, ?_, ?_, ?_⟩
  · intro d p img hd hex hopen
    simp [fallbackFirst, hd, hex, hopen]
  · intro s img hex hopen
    simp [fallbackFirst, hex, hopen]
  · intro s hex
    simp [fallbackFirst, hex]
  · intro img
    rfl
  · intro f v
    rfl
  · intro first rest hscan
    simp [resolveResult, hscan]

/-- Witness for the amended C3 at a concrete first entry. -/
theorem fallback_first_entry_behaviour_witness :
    fallbackFirst envA (Value.vstr "/tmp/a.png") = PRes.ok (some imgA) :=
  (fallback_first_entry_behaviour envA).2.1 "/tmp/a.png" imgA (by decide) (by decide)

/-- Claim C4: a prompt that is empty or whitespace-only makes
`generate_image` return `none` whatever the remote outcome would have
been, and the trace records that no client was constructed and no
predict call was made. -/
theorem blank_prompt_short_circuit (env : Env) (prompt : String)
    (remote : PRes Value) (h : isBlank prompt = true) :
    generateImageT env prompt remote = (none, false) ∧
    generate_image env prompt remote = none := by
  constructor
  · simp [generateImageT, h]
  · simp [generate_image, generateImageT, h]

/-- Witness for C4 on a whitespace-only prompt. -/
theorem blank_prompt_short_circuit_witness :
    generateImageT envA "  " (PRes.ok (Value.vstr "/tmp/a.png")) = (none, false) :=
  (blank_prompt_short_circuit envA "  "
      (PRes.ok (Value.vstr "/tmp/a.png")) (by decide)).1

/-- Counterexample to claim C5: a sequence can contain a mapping whose
`image` field names an existing local file while `generate_image`
returns a different image — an earlier entry that resolves wins the
in-order scan.  Here the first entry is an existing path decoding to
`imgA`, the mapping's file decodes to `imgB`, and the call returns
`imgA ≠ imgB`. -/
theorem seq_mapping_existing_file_cex :
    envA.pathExists "/tmp/b.png" = true ∧
    envA.openFile "/tmp/b.png" = some imgB ∧
    generate_image envA "p"
      (PRes.ok (Value.vlist
        [Value.vstr "/tmp/a.png",
         Value.vdict [("image", Value.vstr "/tmp/b.png")]])) = some imgA ∧
    imgA ≠ imgB := by
  decide

/-- Amended claim C5: for every sequence result containing a mapping
with an `image` key naming an existing local file, if every entry
before that mapping fails to resolve and the file's contents decode
successfully, then `generate_image` (on a non-blank prompt) returns the
decoded contents of that file. -/
theorem seq_mapping_existing_file_resolves (env : Env) (prompt : String)
    (pre post : List Value) (d : List (String × Value)) (p : String)
    (img : Image)
    (hpre : ∀ e ∈ pre, processItem env e = none)
    (hd : List.lookup "image" d = some (Value.vstr p))
    (hex : env.pathExists p = true)
    (hopen : env.openFile p = some img)
    (hp : isBlank prompt = false) :
    generate_image env prompt
      (PRes.ok (Value.vlist (pre ++ Value.vdict d :: post))) = some img := by
  have hscan : scanItems env (pre ++ Value.vdict d :: post) = some img := by
    induction pre with
    | nil => simp [scanItems, processItem, hd, hex, hopen]
    | cons e es ih =>
        have he : processItem env e = none := hpre e (by simp)
        have ihh := ih (fun x hx => hpre x (by simp [hx]))
        simp [scanItems, he, ihh]
  simp [generate_image, generateImageT, resolveResult, hscan, hp]

/-- Witness for the amended C5: an unresolvable entry followed by a
mapping naming `/tmp/b.png`, which decodes to `imgB`. -/
theorem seq_mapping_existing_file_resolves_witness :
    generate_image envA "p"
      (PRes.ok (Value.vlist
        ([Value.vnum 0] ++ Value.vdict [("image", Value.vstr "/tmp/b.png")] :: []))) =
      some imgB :=
  seq_mapping_existing_file_resolves envA "p" [Value.vnum 0] []
    [("image", Value.vstr "/tmp/b.png")] "/tmp/b.png" imgB
    (by intro e he; rcases List.mem_singleton.mp he with rfl; rfl)
    rfl (by decide) (by decide) (by decide)

/-- Claim C6: for a bare text result that begins with `http://` or
`https://` and is not an existing local path, `generate_image` performs
the HTTP fetch: when the fetch returns bytes that decode, the decoded
image is returned; when the fetch fails (raises), the caller receives
`none`. -/
theorem bare_url_fetch_and_decode (env : Env) (prompt s : String)
    (hp : isBlank prompt = false) (hex : env.pathExists s = false)
    (hu : isUrl s = true) :
    (∀ bs img, env.fetch s = some bs → env.decodeBytes bs = some img →
      generate_image env prompt (PRes.ok (Value.vstr s)) = some img) ∧
    (env.fetch s = none →
      generate_image env prompt (PRes.ok (Value.vstr s)) = none) := by
  constructor
  · intro bs img hf hd
    simp [generate_image, generateImageT, resolveResult, hp, hex, hu, hf, hd]
  · intro hf
    simp [generate_image, generateImageT, resolveResult, hp, hex, hu, hf]

/-- Witness for C6: fetching `urlX` in `envA` returns bytes `[9, 9]`,
which decode to `imgW`. -/
theorem bare_url_fetch_and_decode_witness :
    generate_image envA "p" (PRes.ok (Value.vstr urlX)) = some imgW :=
  (bare_url_fetch_and_decode envA "p" urlX (by decide) (by decide)
      (by decide)).1 [9, 9] imgW (by decide) (by decide)

/-- Claim C7: a remote result whose shape matches no probe — a number,
or an empty sequence — yields `none` from `generate_image`, and the
shape probes complete without raising (`PRes.ok`, not `PRes.exn`). -/
theorem unmatched_shape_returns_none (env : Env) (prompt : String) (n : Int) :
    resolveResult env (Value.vnum n) = PRes.ok none ∧
    resolveResult env (Value.vlist []) = PRes.ok none ∧
    generate_image env prompt (PRes.ok (Value.vnum n)) = none ∧
    generate_image env prompt (PRes.ok (Value.vlist [])) = none := by
  refine ⟨rfl, rfl, ?_, ?_⟩ <;>
    cases hb : isBlank prompt <;>
      simp [generate_image, generateImageT, hb, resolveResult, scanItems]

/-- Claim C8: a per-entry failure during the in-order scan never aborts
the scan.  A failing head entry is skipped; a decode error on a
mapping's existing file is one such per-entry failure; and when a later
entry resolves, `generate_image` still returns its image. -/
theorem per_entry_failure_scan_continues (env : Env) (prompt : String)
    (bad : Value) (rest : List Value)
    (hbad : processItem env bad = none) :
    scanItems env (bad :: rest) = scanItems env rest ∧
    (∀ p, env.pathExists p = true → env.openFile p = none →
      processItem env (Value.vdict [("image", Value.vstr p)]) = none) ∧
    (∀ img, isBlank prompt = false → scanItems env rest = some img →
      generate_image env prompt (PRes.ok (Value.vlist (bad :: rest))) = some img) := by
  refine ⟨?_, ?_, ?_⟩
  · simp [scanItems, hbad]
  · intro p hex hopen
    simp [processItem, hex, hopen]
  · intro img hp hrest
    simp [generate_image, generateImageT, resolveResult, scanItems, hbad, hrest, hp]

/-- Witness for C8: a failing URL entry (its fetch raises in `envA2`)
followed by an existing decodable path still yields that path's image. -/
theorem per_entry_failure_scan_continues_witness :
    generate_image envA2 "p"
      (PRes.ok (Value.vlist
        [Value.vstr "http://dead.example/x.png", Value.vstr "/tmp/a.png"])) =
      some imgA :=
  (per_entry_failure_scan_continues envA2 "p"
      (Value.vstr "http://dead.example/x.png") [Value.vstr "/tmp/a.png"]
      (by decide)).2.2 imgA (by decide) (by decide)

/-- Claim C9: normalization is deterministic given a stable referenced
file.  If two calls see the same existence and the same decoded
contents for the referenced path `p` (everything else about the two
environments may differ), then the well-formed results referencing `p`
— a single mapping, or a singleton sequence of that mapping — normalize
to the same outcome, and `generate_image` returns pixel-identical
images both times. -/
theorem resolve_stable_file_deterministic (env1 env2 : Env) (p : String)
    (hex : env1.pathExists p = env2.pathExists p)
    (hopen : env1.openFile p = env2.openFile p) :
    resolveResult env1 (Value.vdict [("image", Value.vstr p)]) =
      resolveResult env2 (Value.vdict [("image", Value.vstr p)]) ∧
    resolveResult env1 (Value.vlist [Value.vdict [("image", Value.vstr p)]]) =
      resolveResult env2 (Value.vlist [Value.vdict [("image", Value.vstr p)]]) ∧
    (∀ prompt,
      generate_image env1 prompt (PRes.ok (Value.vdict [("image", Value.vstr p)])) =
      generate_image env2 prompt (PRes.ok (Value.vdict [("image", Value.vstr p)]))) := by
  have key : ∀ env : Env,
      resolveResult env (Value.vdict [("image", Value.vstr p)]) =
        (if env.pathExists p then
          match env.openFile p with
          | some img => PRes.ok (some img)
          | none => PRes.exn
         else PRes.ok none) := fun env => rfl
  refine ⟨?_, ?_, ?_⟩
  · rw [key, key, hex, hopen]
  · cases hpe : env2.pathExists p <;> cases hof : env2.openFile p <;>
      simp [resolveResult, scanItems, processItem, fallbackFirst, List.lookup,
        hex, hopen, hpe, hof]
  · intro prompt
    cases hb : isBlank prompt <;>
      simp [generate_image, generateImageT, hb, key, hex, hopen]

/-- Witness for C9: `envA` and `envA2` differ on the network but agree
on `/tmp/b.png`, and normalize the mapping identically. -/
theorem resolve_stable_file_deterministic_witness :
    resolveResult envA (Value.vdict [("image", Value.vstr "/tmp/b.png")]) =
      resolveResult envA2 (Value.vdict [("image", Value.vstr "/tmp/b.png")]) :=
  (resolve_stable_file_deterministic envA envA2 "/tmp/b.png" rfl rfl).1

/-- Claim C10: for a text candidate that both names an existing local
path and begins with a URL scheme, the filesystem probe wins: the scan
entry resolves through `Image.open` on the path, the outcome is
independent of the network, and with a successful decode
`generate_image` returns the local file's image — no fetch happens. -/
theorem existing_path_beats_url (env : Env) (s : String)
    (hu : isUrl s = true) (hex : env.pathExists s = true) :
    processItem env (Value.vstr s) = env.openFile s ∧
    (∀ f, processItem { env with fetch := f } (Value.vstr s) =
      processItem env (Value.vstr s)) ∧
    (∀ f, resolveResult { env with fetch := f } (Value.vstr s) =
      resolveResult env (Value.vstr s)) ∧
    (∀ prompt img, isBlank prompt = false → env.openFile s = some img →
      generate_image env prompt (PRes.ok (Value.vstr s)) = some img) := by
  refine ⟨?_, ?_, ?_, ?_⟩
  · simp [processItem, hex]
  · intro f
    simp [processItem, hex]
  · intro f
    simp [resolveResult, hex]
  · intro prompt img hp hopen
    simp [generate_image, generateImageT, resolveResult, hex, hopen, hp]

/-- Witness for C10: in `envU` the text `urlX` exists locally (decoding
to `imgA`) and is also fetchable (decoding to `imgW`); the local image
is returned. -/
theorem existing_path_beats_url_witness :
    generate_image envU "p" (PRes.ok (Value.vstr urlX)) = some imgA :=
  (existing_path_beats_url envU urlX (by decide) (by decide)).2.2.2
    "p" imgA (by decide) (by decide)

end VibeImage
